import Mathlib

/-!
Verification of the ftail logging crate's dispatch, filtering, daily rotation,
retention pruning and construction logic, as a shallow embedding of the Rust
source (src/lib.rs, src/channels/daily_file.rs, src/drivers/single.rs).
-/

namespace Ftail

/-- Log levels of the `log` crate, ordered by their usize discriminant:
`Error = 1 < Warn = 2 < Info = 3 < Debug = 4 < Trace = 5`. -/
inductive Level
  | error
  | warn
  | info
  | debug
  | trace
deriving DecidableEq, Repr

/-- Numeric discriminant of a `log::Level`. -/
def Level.toNat : Level → Nat
  | .error => 1
  | .warn => 2
  | .info => 3
  | .debug => 4
  | .trace => 5

/-- Level filters of the `log` crate; `Off = 0` sits below every level. -/
inductive LevelFilter
  | off
  | error
  | warn
  | info
  | debug
  | trace
deriving DecidableEq, Repr

/-- Numeric discriminant of a `log::LevelFilter`. -/
def LevelFilter.toNat : LevelFilter → Nat
  | .off => 0
  | .error => 1
  | .warn => 2
  | .info => 3
  | .debug => 4
  | .trace => 5

/-- The `log` crate's `Level <= LevelFilter` comparison (by discriminant). -/
def levelLeFilter (l : Level) (f : LevelFilter) : Bool :=
  l.toNat ≤ f.toNat

/-- The `Config` struct of src/lib.rs (the `timezone` feature field omitted). -/
structure Config where
  level_filter : LevelFilter
  datetime_format : String
  max_file_size : Option Nat
  retention_days : Option Nat
  levels : Option (List Level)
  targets : Option (List String)
deriving DecidableEq, Repr

/-- Config::new from src/formatters/mod.rs: `level_filter` defaults to Off,
datetime format to `%Y-%m-%d %H:%M:%S`, everything else to None. -/
def Config.new : Config :=
  { level_filter := .off
    datetime_format := "%Y-%m-%d %H:%M:%S"
    max_file_size := none
    retention_days := none
    levels := none
    targets := none }

/-- The part of `log::Metadata` the code reads: a level and a target string. -/
structure Metadata where
  level : Level
  target : String
deriving DecidableEq, Repr

/-- Rust's `str::starts_with`: the second string is a prefix of the first. -/
def strStartsWith (s p : String) : Bool :=
  List.isPrefixOf p.data s.data

/-- First early-return guard of `Ftail::enabled` (src/lib.rs lines 395-404):
with an explicit level allow-list the event's level must be contained in it. -/
def levelsAccept (levels : Option (List Level)) (l : Level) : Bool :=
  match levels with
  | some ls => ls.contains l
  | none => true

/-- Second early-return guard of `Ftail::enabled` (src/lib.rs lines 406-416):
with an explicit target allow-list the event's target must start with one of
the configured strings (`starts_with`, a prefix match). -/
def targetsAccept (targets : Option (List String)) (target : String) : Bool :=
  match targets with
  | some ts => ts.any (fun t => strStartsWith target t)
  | none => true

/-- `Ftail::enabled` (src/lib.rs lines 394-419): the global filter; both
early-return guards must pass. -/
def enabled (config : Config) (m : Metadata) : Bool :=
  levelsAccept config.levels m.level && targetsAccept config.targets m.target

/-- `DailyFileLogger::enabled` (src/channels/daily_file.rs lines 77-83):
a level filter of Off accepts everything, otherwise the event's level must
be at most the configured filter. -/
def DailyFileLogger.enabled (config : Config) (m : Metadata) : Bool :=
  if config.level_filter = LevelFilter.off then true
  else levelLeFilter m.level config.level_filter

/-- The early-return guard of `DailyFileLogger::log` (src/channels/daily_file.rs
lines 86-88): the write proceeds exactly when `enabled` holds. -/
def DailyFileLogger.logDelivers (config : Config) (m : Metadata) : Bool :=
  if !(DailyFileLogger.enabled config m) then false else true

/-- `SingleLogger::enabled` (src/drivers/single.rs lines 40-42): constant true. -/
def SingleLogger.enabled (_m : Metadata) : Bool :=
  true

/-- Body of `SingleLogger::log` (src/drivers/single.rs lines 44-50): it formats
and writes the record unconditionally; no `enabled` or level check appears. -/
def SingleLogger.logWrites (_m : Metadata) : Bool :=
  true

/-- `Ftail::log` (src/lib.rs lines 421-429) composed with the single-file
sink: the record reaches the sink iff the global filter accepts it, and the
sink then writes it unconditionally. -/
def deliveredToSingle (global : Config) (m : Metadata) : Bool :=
  enabled global m && SingleLogger.logWrites m

/-- `Ftail::log` composed with the daily-file sink: the record is written
iff the global filter accepts it and the sink's own guard passes. -/
def deliveredToDaily (global : Config) (sinkConfig : Config) (m : Metadata) : Bool :=
  enabled global m && DailyFileLogger.logDelivers sinkConfig m

/-- Mutable state of `DailyFileLogger` (src/channels/daily_file.rs lines 17-23).
`file_path` is the `file_path: PathBuf` field, set in `new` and never written
again anywhere in the file; `open_path` models which path the `LineWriter`
file handle currently appends to; `current_date` is the stored date string. -/
structure DailyState where
  file_path : String
  dir : String
  current_date : String
  open_path : String
deriving DecidableEq, Repr

/-- Path of the daily log file: `format!("{}/{}.log", dir, today)`. -/
def dailyLogPath (dir today : String) : String :=
  dir ++ "/" ++ today ++ ".log"

/-- The date-switch block of `DailyFileLogger::rotate_daily_file`
(src/channels/daily_file.rs lines 52-68): when the stored date differs from
today, open (with create+append) the file `dir/today.log`, point the handle at
it and store today; otherwise leave the state alone. The second component
reports which path, if any, was opened with the create flag. The `file_path`
field is not touched (the source never updates it). Retention pruning, which
the source runs right after this block, acts on the file system only and is
modelled separately. -/
def rotateDailyFile (today : String) (s : DailyState) : DailyState × Option String :=
  if s.current_date ≠ today then
    let path := dailyLogPath s.dir today
    ({ s with open_path := path, current_date := today }, some path)
  else (s, none)

/-- Effect of the size-rotation helper on the sink: which paths it touched
(renamed or reopened) and whether the handle was re-pointed at a fresh file. -/
structure SizeRotationResult where
  touched : List String
  repointed : Bool
deriving DecidableEq, Repr

/-- Modelled from the spec: `helpers::rotate_if_exceeds_max_file_size`
(src/helpers.rs is not in the snapshot; only its call site in
`DailyFileLogger::log` is). Per the spec's size rule, rotate exactly when the
current size of the file at `path` is at least `max_file_size` (no configured
maximum means never rotate); on rotation the active file at `path` is renamed
into the `.old<N>` chain (so both `path` and `path ++ ".old1"` are touched)
and a fresh empty active file is opened at `path`, which the handle then
points to. -/
def rotateIfExceedsMaxFileSize (path : String) (sizeOf : String → Nat)
    (config : Config) : SizeRotationResult :=
  match config.max_file_size with
  | none => ⟨[], false⟩
  | some maxSize =>
      if maxSize ≤ sizeOf path then ⟨[path, path ++ ".old1"], true⟩
      else ⟨[], false⟩

/-- Body of `DailyFileLogger::log` after the `enabled` guard
(src/channels/daily_file.rs lines 90-97): first
`rotate_if_exceeds_max_file_size(&self.file, self.file_path.clone(), ...)` —
note the argument is the stored `file_path` field — then `rotate_daily_file`,
then the append to whatever file the handle now points to. Returns the new
state and every path this write touched (size-rotation renames, files opened
by the date switch, and the append target). -/
def dailyLogWrite (s : DailyState) (today : String) (sizeOf : String → Nat)
    (config : Config) : DailyState × List String :=
  let r := rotateIfExceedsMaxFileSize s.file_path sizeOf config
  let s1 := if r.repointed then { s with open_path := s.file_path } else s
  let (s2, opened) := rotateDailyFile today s1
  (s2, r.touched ++ opened.toList ++ [s2.open_path])

/-- One entry of the sink's directory as `remove_old_log_files` observes it:
its path, the result of `path.extension()`, and its last-modified time in
seconds. -/
structure DirEntry where
  path : String
  ext : Option String
  modified : Int
deriving DecidableEq, Repr

/-- chrono's `Duration::num_days` of `now - modified`: whole days, i64
division truncating toward zero. -/
def ageDays (now modified : Int) : Int :=
  (now - modified).tdiv 86400

/-- `remove_old_log_files` (src/channels/daily_file.rs lines 105-124) with all
file operations succeeding: of the entries of the sink's own directory (a
`read_dir` listing, non-recursive), exactly those whose extension is `log`
and whose age in whole days strictly exceeds `retention_days` are deleted;
the result is the list of deleted entries. -/
def remove_old_log_files (entries : List DirEntry) (now : Int)
    (retention_days : Nat) : List DirEntry :=
  entries.filter (fun e =>
    e.ext == some "log" && decide ((retention_days : Int) < ageDays now e.modified))

/-- One directory entry with fallible file operations: `stat = none` models a
failing `metadata()`/`modified()` call, `removeOk = false` a failing
`remove_file`. -/
structure FallibleEntry where
  path : String
  ext : Option String
  stat : Option Int
  removeOk : Bool
deriving DecidableEq, Repr

/-- Outcome of a pruning scan: either it finished, or an `unwrap` hit an
error and the thread panicked; both carry the paths deleted up to that
point. -/
inductive PruneOutcome
  | ok (deleted : List String)
  | panicked (deleted : List String)
deriving DecidableEq, Repr

/-- `remove_old_log_files` with its `unwrap` calls made explicit
(src/channels/daily_file.rs lines 105-124): `file.metadata().unwrap()` /
`modified().unwrap()` panic when the stat fails, and
`std::fs::remove_file(path).unwrap()` panics when the delete fails; a panic
ends the scan on the spot. -/
def removeOldLogFilesRun (now : Int) (retention_days : Nat) :
    List FallibleEntry → List String → PruneOutcome
  | [], deleted => .ok deleted.reverse
  | e :: rest, deleted =>
      if e.ext == some "log" then
        match e.stat with
        | none => .panicked deleted.reverse
        | some modified =>
            if (retention_days : Int) < ageDays now modified then
              if e.removeOk then
                removeOldLogFilesRun now retention_days rest (e.path :: deleted)
              else .panicked deleted.reverse
            else removeOldLogFilesRun now retention_days rest deleted
      else removeOldLogFilesRun now retention_days rest deleted

/-- A pruning panic propagates out of `rotate_daily_file` into
`DailyFileLogger::log`, so the append and flush after it never run: the
write completes only when the scan finished. -/
def dailyWriteCompletes : PruneOutcome → Bool
  | .ok _ => true
  | .panicked _ => false

/-- The error enum of src/error.rs, as its constructors appear at the call
sites in src/lib.rs, src/channels/daily_file.rs and src/drivers/single.rs. -/
inductive FtailError
  | ioError
  | permissionsError (path : String)
  | noChannelsError
  | setLoggerError
deriving DecidableEq, Repr

/-- File-system state a constructor runs against: which files exist, which
existing files are writable, and which directories allow creating entries. -/
structure FsState where
  existing : List String
  writableFiles : List String
  writableDirs : List String
deriving DecidableEq, Repr

/-- Semantics of `OpenOptions::new().create(true)` with write/append access:
an existing file opens iff it is writable; a missing file is created iff its
directory allows creating entries (the fresh file is writable). Returns the
file system after the call, or none when the open fails. -/
def openCreateWrite (fs : FsState) (dir path : String) : Option FsState :=
  if fs.existing.contains path then
    if fs.writableFiles.contains path then some fs else none
  else
    if fs.writableDirs.contains dir then
      some { fs with
        existing := path :: fs.existing
        writableFiles := path :: fs.writableFiles }
    else none

/-- Result of running a sink constructor: the built state or the returned
error, together with every path a file handle was opened or created on
during the run. -/
inductive ConstructOutcome (σ : Type)
  | ok (state : σ) (opened : List String)
  | err (e : FtailError) (opened : List String)
deriving DecidableEq, Repr

/-- `DailyFileLogger::new` (src/channels/daily_file.rs lines 26-49): first
open (create+append) `dir/today.log` — a failure is returned as IoError —
and only then stat the directory and return PermissionError when it is
read-only; so by the time the permission check runs the day file has already
been opened, and created when it was absent. -/
def DailyFileLogger.new (dir today : String) (fs : FsState) :
    ConstructOutcome DailyState :=
  let path := dailyLogPath dir today
  match openCreateWrite fs dir path with
  | none => .err .ioError []
  | some fs1 =>
      if fs1.writableDirs.contains dir then
        .ok ⟨path, dir, today, path⟩ [path]
      else .err (.permissionsError dir) [path]

/-- `SingleLogger::new` (src/drivers/single.rs lines 19-36): open
(create+write+append) the path — a failure is returned as IoError — then
stat the path itself and return PermissionError when it is read-only. -/
def SingleLogger.new (path dir : String) (_append : Bool) (fs : FsState) :
    ConstructOutcome Unit :=
  match openCreateWrite fs dir path with
  | none => .err .ioError []
  | some fs1 =>
      if fs1.writableFiles.contains path then .ok () [path]
      else .err (.permissionsError path) [path]

/-- `Ftail::init` (src/lib.rs lines 353-372): with no registered channels it
returns NoChannelsError; otherwise the channels are constructed and
`log::set_boxed_logger` decides between success and SetLoggerError. The
registered channels are carried as their assigned level filters; whether the
facade registration succeeds is the `setLoggerOk` input. -/
def init (channels : List LevelFilter) (setLoggerOk : Bool) :
    Except FtailError Unit :=
  if channels.isEmpty then .error .noChannelsError
  else if setLoggerOk then .ok () else .error .setLoggerError

/-- `Ftail::max_file_size` (src/lib.rs lines 269-273): the builder stores
`max_file_size_in_mb * 1024 * 1024` in `Config.max_file_size`. -/
def max_file_size (config : Config) (max_file_size_in_mb : Nat) : Config :=
  { config with max_file_size := some (max_file_size_in_mb * 1024 * 1024) }

/-- State of a daily sink constructed on 2024-01-01 in directory `logs`
(how `DailyFileLogger::new` fills the fields). -/
def c3s0 : DailyState :=
  ⟨"logs/2024-01-01.log", "logs", "2024-01-01", "logs/2024-01-01.log"⟩

/-- Config of a daily sink with a 10-byte size-rotation threshold. -/
def c4cfg : Config :=
  { Config.new with max_file_size := some 10 }

/-- State of a daily sink constructed on 2024-01-01, after its first write on
2024-01-02 (all files small, so no size rotation fires on that write). -/
def c4s1 : DailyState :=
  (dailyLogWrite c3s0 "2024-01-02" (fun _ => 0) c4cfg).1

/-- A reference instant for the pruning scans, in seconds. -/
def pruneNow : Int := 1000 * 86400

/-- Directory entry last modified 8 days before `pruneNow`. -/
def entryEightDaysOld : DirEntry :=
  ⟨"logs/2024-01-01.log", some "log", pruneNow - 8 * 86400⟩

/-- Directory entry last modified 6 days before `pruneNow`. -/
def entrySixDaysOld : DirEntry :=
  ⟨"logs/2024-01-03.log", some "log", pruneNow - 6 * 86400⟩

/-- Directory entry of the currently open day file, just written. -/
def entryCurrentFile : DirEntry :=
  ⟨"logs/2024-01-09.log", some "log", pruneNow⟩

/-- Claim C1: per the claim, every sink - the single-file sink included -
must reject events whose level exceeds its configured minimum, so a Trace
record must not reach a single-file sink registered at minimum level Error.
The embedded code delivers it: `SingleLogger::enabled` is constant true and
`SingleLogger::log` writes unconditionally, so once the (empty) global
filters accept the record it is written, while `Trace <= Error` is false in
the `log` crate's ordering. This evaluates the code at the failing input. -/
theorem c1_single_logger_ignores_level :
    deliveredToSingle Config.new ⟨Level.trace, "app"⟩ = true ∧
    levelLeFilter Level.trace LevelFilter.error = false := by
  decide

/-- Claim C2: the global target filter of `Ftail::enabled` is a prefix match:
with a configured allow-list `ts` (and no level allow-list) an event passes
iff its target starts with at least one member of `ts`; concretely, target
`foo::bar` passes the filter configured with `foo` and target `baz` is
rejected by it. -/
theorem c2_target_filter_is_prefix_match :
    (∀ (ts : List String) (lv : Level) (tgt : String),
        enabled { Config.new with targets := some ts } ⟨lv, tgt⟩ = true ↔
          ∃ p ∈ ts, p.data <+: tgt.data)
    ∧ enabled { Config.new with targets := some ["foo"] } ⟨.info, "foo::bar"⟩ = true
    ∧ enabled { Config.new with targets := some ["foo"] } ⟨.info, "baz"⟩ = false := by
  refine ⟨?_, by decide, by decide⟩
  intro ts lv tgt
  simp [enabled, Config.new, levelsAccept, targetsAccept, strStartsWith,
    List.any_eq_true]

/-- Claim C3: on a write, when today differs from the sink's stored date,
`rotate_daily_file` opens (with the create flag) the file
`dir/<YYYY-MM-DD>.log` named for the new date, points the handle at it and
updates the stored date - all before the append, which `DailyFileLogger::log`
performs afterwards; when the dates match, the handle and the stored date
are left unchanged and nothing is opened. -/
theorem c3_daily_rotation :
    ∀ (s : DailyState) (today : String),
      (today ≠ s.current_date →
          rotateDailyFile today s =
            ({ s with open_path := dailyLogPath s.dir today, current_date := today },
              some (dailyLogPath s.dir today)))
      ∧ (today = s.current_date → rotateDailyFile today s = (s, none)) := by
  intro s today
  constructor
  · intro h
    unfold rotateDailyFile
    rw [if_pos (Ne.symm h)]
  · intro h
    unfold rotateDailyFile
    rw [if_neg (fun hc => hc h.symm)]

/-- Witness for C3: the concrete sink constructed on 2024-01-01 switches to
`logs/2024-01-02.log` on 2024-01-02 and is untouched by a write dated
2024-01-01. -/
theorem c3_witness :
    rotateDailyFile "2024-01-02" c3s0 =
      ({ c3s0 with
          open_path := dailyLogPath c3s0.dir "2024-01-02",
          current_date := "2024-01-02" }, some (dailyLogPath c3s0.dir "2024-01-02"))
    ∧ rotateDailyFile "2024-01-01" c3s0 = (c3s0, none) :=
  ⟨(c3_daily_rotation c3s0 "2024-01-02").1 (by decide),
    (c3_daily_rotation c3s0 "2024-01-01").2 (by decide)⟩

/-- Claim C4: per the claim, once the daily sink has rotated past a date no
subsequent write touches the old date's file. The embedded code violates
this: `file_path` is set in `new` and never updated, and every call of
`DailyFileLogger::log` hands it to the size-rotation helper. Concretely: the
sink built on 2024-01-01 rotates to 2024-01-02 on its first write of that
day, yet its `file_path` still names `logs/2024-01-01.log`; the next write,
with the size threshold exceeded there, renames the old date's file and even
re-points the handle at that stale path, so the append targets it too. This
evaluates the code at the failing input. -/
theorem c4_size_rotation_touches_old_date_file :
    c4s1.current_date = "2024-01-02" ∧
    c4s1.file_path = "logs/2024-01-01.log" ∧
    (dailyLogWrite c4s1 "2024-01-02" (fun _ => 100) c4cfg).2.contains
        "logs/2024-01-01.log" = true ∧
    (dailyLogWrite c4s1 "2024-01-02" (fun _ => 100) c4cfg).1.open_path
        = "logs/2024-01-01.log" := by
  decide

/-- Claim C5: retention pruning deletes an entry of the sink's directory
listing iff its extension is `log` and its age (now minus last-modified) in
whole days strictly exceeds `retention_days`; an entry whose whole-day age is
zero - in particular the currently open day file, written today - is never
deleted; and under `retention_days = 7` the file modified 8 days ago is
removed while the one modified 6 days ago is retained. -/
theorem c5_retention_pruning :
    (∀ (entries : List DirEntry) (now : Int) (rd : Nat) (e : DirEntry),
        e ∈ remove_old_log_files entries now rd ↔
          e ∈ entries ∧ e.ext = some "log" ∧ (rd : Int) < ageDays now e.modified)
    ∧ (∀ (entries : List DirEntry) (now : Int) (rd : Nat) (e : DirEntry),
        ageDays now e.modified = 0 → e ∉ remove_old_log_files entries now rd)
    ∧ remove_old_log_files [entryEightDaysOld, entrySixDaysOld, entryCurrentFile]
        pruneNow 7 = [entryEightDaysOld] := by
  refine ⟨?_, ?_, by decide⟩
  · intro entries now rd e
    simp [remove_old_log_files, List.mem_filter, and_assoc]
  · intro entries now rd e h hmem
    rw [remove_old_log_files, List.mem_filter] at hmem
    have h2 := hmem.2
    simp [h] at h2
    omega

/-- Witness for C5: the currently open day file, with whole-day age zero, is
not deleted by the concrete scan. -/
theorem c5_witness :
    entryCurrentFile ∉ remove_old_log_files
      [entryEightDaysOld, entrySixDaysOld, entryCurrentFile] pruneNow 7 :=
  c5_retention_pruning.2.1 [entryEightDaysOld, entrySixDaysOld, entryCurrentFile]
    pruneNow 7 entryCurrentFile (by decide)

/-- Claim C6: per the claim, a failing stat on one file must not abort the
scan of the remaining files and the write must complete regardless. The
embedded code unwraps every stat and delete, so the scan over a directory
whose first `.log` entry fails to stat panics at once: the 8-day-old file
after it is not deleted and the write never completes - while the same scan
without the failing entry does delete it. This evaluates the code at the
failing input. -/
theorem c6_prune_failure_aborts_scan_and_write :
    removeOldLogFilesRun pruneNow 7
        [⟨"logs/2024-01-02.log", some "log", none, true⟩,
          ⟨"logs/2024-01-01.log", some "log", some (pruneNow - 8 * 86400), true⟩] [] =
      PruneOutcome.panicked [] ∧
    dailyWriteCompletes (removeOldLogFilesRun pruneNow 7
        [⟨"logs/2024-01-02.log", some "log", none, true⟩,
          ⟨"logs/2024-01-01.log", some "log", some (pruneNow - 8 * 86400), true⟩] []) =
      false ∧
    removeOldLogFilesRun pruneNow 7
        [⟨"logs/2024-01-01.log", some "log", some (pruneNow - 8 * 86400), true⟩] [] =
      PruneOutcome.ok ["logs/2024-01-01.log"] := by
  decide

/-- File system with directory `logs` read-only while the day file already
exists and is itself writable. -/
def fsReadonlyDirFileExists : FsState :=
  ⟨["logs/2024-01-01.log"], ["logs/2024-01-01.log"], []⟩

/-- File system with a writable directory `logs` but a read-only file at
`logs/demo.log`. -/
def fsReadonlyFile : FsState :=
  ⟨["logs/demo.log"], [], ["logs"]⟩

/-- Counterexample to claim C7: against the read-only directory `logs` whose
day file already exists and is writable, `DailyFileLogger::new` does return
PermissionError - but only after opening the day file, so a file handle was
created on the failing path, contradicting the claim's "creates no file
handle"; and `SingleLogger::new` against a read-only file returns IoError
(the open itself fails), not the PermissionError the claim announces. -/
theorem c7_counterexample :
    DailyFileLogger.new "logs" "2024-01-01" fsReadonlyDirFileExists =
      ConstructOutcome.err (.permissionsError "logs") ["logs/2024-01-01.log"] ∧
    SingleLogger.new "logs/demo.log" "logs" true fsReadonlyFile =
      ConstructOutcome.err .ioError [] := by
  decide

/-- Claim C7 as amended: construction against a read-only target still fails,
but the open precedes the permission check. For the daily sink a read-only
directory yields either IoError with nothing opened (the open failed, e.g.
the day file had to be created) or PermissionError with the day file already
opened; for the single-file sink an existing read-only path makes the open
fail, so construction returns IoError with nothing opened. -/
theorem c7_amended_construction_failure :
    (∀ (fs : FsState) (dir today : String),
        dir ∉ fs.writableDirs →
          DailyFileLogger.new dir today fs = ConstructOutcome.err .ioError [] ∨
          DailyFileLogger.new dir today fs =
            ConstructOutcome.err (.permissionsError dir) [dailyLogPath dir today])
    ∧ (∀ (fs : FsState) (path dir : String) (append : Bool),
        path ∈ fs.existing → path ∉ fs.writableFiles →
          SingleLogger.new path dir append fs = ConstructOutcome.err .ioError []) := by
  constructor
  · intro fs dir today h
    by_cases h1 : dailyLogPath dir today ∈ fs.existing
    · by_cases h2 : dailyLogPath dir today ∈ fs.writableFiles
      · right
        simp [DailyFileLogger.new, openCreateWrite, h1, h2, h]
      · left
        simp [DailyFileLogger.new, openCreateWrite, h1, h2]
    · left
      simp [DailyFileLogger.new, openCreateWrite, h1, h]
  · intro fs path dir append h1 h2
    simp [SingleLogger.new, openCreateWrite, h1, h2]

/-- Witness for the amended C7, at the two concrete file systems. -/
theorem c7_witness :
    (DailyFileLogger.new "logs" "2024-01-01" fsReadonlyDirFileExists =
        ConstructOutcome.err .ioError [] ∨
      DailyFileLogger.new "logs" "2024-01-01" fsReadonlyDirFileExists =
        ConstructOutcome.err (.permissionsError "logs")
          [dailyLogPath "logs" "2024-01-01"]) ∧
    SingleLogger.new "logs/demo.log" "logs" true fsReadonlyFile =
      ConstructOutcome.err .ioError [] :=
  ⟨c7_amended_construction_failure.1 fsReadonlyDirFileExists "logs" "2024-01-01"
      (by decide),
    c7_amended_construction_failure.2 fsReadonlyFile "logs/demo.log" "logs" true
      (by decide) (by decide)⟩

/-- Claim C8: `Ftail::init` fails with the configuration error
NoChannelsError - an error return, not a process exit - exactly when the
builder registered zero channels, whatever the facade registration would
have answered. -/
theorem c8_init_fails_iff_no_channels :
    ∀ (channels : List LevelFilter) (setLoggerOk : Bool),
      init channels setLoggerOk = Except.error FtailError.noChannelsError ↔
        channels = [] := by
  intro channels ok
  cases channels with
  | nil => simp [init]
  | cons c rest => cases ok <;> simp [init]

/-- Witness for C8: an empty builder fails with NoChannelsError and a builder
with one channel does not. -/
theorem c8_witness :
    init [] true = Except.error FtailError.noChannelsError ∧
    ¬ init [LevelFilter.error] true = Except.error FtailError.noChannelsError :=
  ⟨(c8_init_fails_iff_no_channels [] true).mpr rfl,
    fun h => List.cons_ne_nil _ _
      ((c8_init_fails_iff_no_channels [LevelFilter.error] true).mp h)⟩

/-- Counterexample to claim C9: passing 1 to the max-file-size builder call
stores 1048576 in `Config.max_file_size`, not 1 - the stored byte threshold
does not equal the value passed. -/
theorem c9_counterexample :
    (max_file_size Config.new 1).max_file_size = some 1048576 ∧
    (1048576 : Nat) ≠ 1 := by
  decide

/-- Claim C9 as amended: the builder's max-file-size option is specified in
megabytes; the byte threshold stored in `Config.max_file_size` (the one the
size-rotation rule compares file sizes against) is the passed value times
1024 * 1024. -/
theorem c9_amended_megabytes :
    ∀ (config : Config) (v : Nat),
      (max_file_size config v).max_file_size = some (v * 1024 * 1024) := by
  intro config v
  rfl

/-- Claim C10: when the daily-file sink's level filter is Off, its `enabled`
guard accepts every event, so `DailyFileLogger::log` proceeds to write
records of every level - Off means no filtering, not log nothing. -/
theorem c10_off_level_filter_logs_everything :
    ∀ (config : Config) (m : Metadata), config.level_filter = LevelFilter.off →
      DailyFileLogger.logDelivers config m = true := by
  intro config m h
  simp [DailyFileLogger.logDelivers, DailyFileLogger.enabled, h]

/-- Witness for C10: with the default config (whose level filter is Off) a
Trace record is written by the daily sink. -/
theorem c10_witness :
    DailyFileLogger.logDelivers Config.new ⟨Level.trace, "main"⟩ = true :=
  c10_off_level_filter_logs_everything Config.new ⟨Level.trace, "main"⟩ rfl

end Ftail
